import Mathlib

/-!
Verification of the TTS cache proxy (`tts_cache_proxy.py`).

The development shallowly embeds the proxy's pure computations (cache-key
derivation over JSON payloads, preferred-key sanitization) and its request
handler `do_POST` / `do_OPTIONS` as pure functions over explicit inputs:
the cache directory is a partial map from file name to bytes, the upstream
HTTP call and the two fallible file operations (cache read, cache write)
are oracle inputs describing their outcome, and the response written to the
socket (status line, headers, body bytes) is the output.  Machine integers
do not occur in the Python source except inside SHA-256, which is embedded
over `Nat` with explicit reduction modulo 2^32.
-/

namespace TTSProxy

/-- JSON values as produced by Python's `json.loads`: objects keep their
field order as an association list (Python dicts preserve insertion order),
numbers are modelled as integers (the payloads relevant to this proxy carry
no fractional numbers). -/
inductive Json where
  | null : Json
  | bool (b : Bool) : Json
  | num (n : Int) : Json
  | str (s : String) : Json
  | arr (elems : List Json) : Json
  | obj (fields : List (String × Json)) : Json

mutual

/-- Python's `==` on JSON values (structural equality; dict comparison in
Python is order-insensitive, but the equality test in the source compares a
dict *entry* against the string `'mp3'`, so order of object fields never
reaches a Python `==` — structural equality is exact for every comparison the
source performs). -/
def jeqv : Json → Json → Bool
  | .null, .null => true
  | .bool a, .bool b => a == b
  | .num a, .num b => a == b
  | .str a, .str b => a == b
  | .arr xs, .arr ys => jeqvList xs ys
  | .obj fs, .obj gs => jeqvFields fs gs
  | _, _ => false

/-- Elementwise equality of JSON arrays. -/
def jeqvList : List Json → List Json → Bool
  | [], [] => true
  | x :: xs, y :: ys => jeqv x y && jeqvList xs ys
  | _, _ => false

/-- Entrywise equality of JSON object field lists. -/
def jeqvFields : List (String × Json) → List (String × Json) → Bool
  | [], [] => true
  | p :: fs, q :: gs => p.1 == q.1 && jeqv p.2 q.2 && jeqvFields fs gs
  | _, _ => false

end

/-! ### Size measure for induction over `Json` -/

mutual

/-- Size of a JSON value, used for strong induction. -/
def jsize : Json → Nat
  | .null => 1
  | .bool _ => 1
  | .num _ => 1
  | .str _ => 1
  | .arr xs => 1 + jsizeList xs
  | .obj fs => 1 + jsizeFields fs

/-- Size of a list of JSON values. -/
def jsizeList : List Json → Nat
  | [] => 0
  | x :: xs => 1 + jsize x + jsizeList xs

/-- Size of a JSON object's field list. -/
def jsizeFields : List (String × Json) → Nat
  | [] => 0
  | p :: fs => 1 + jsize p.2 + jsizeFields fs

end

/-! ### SHA-256 over byte lists (`hashlib.sha256`)

Bytes are `Nat`s below 256, 32-bit words are `Nat`s reduced modulo `2^32`.
This embeds the FIPS 180-4 algorithm that `hashlib.sha256(...)` computes. -/

/-- `2^32`, the word modulus of SHA-256. -/
def M32 : Nat := 4294967296

/-- Right rotation of a 32-bit word by `n` bits. -/
def rotr (n x : Nat) : Nat := ((x >>> n) ||| (x <<< (32 - n))) % M32

/-- SHA-256 small sigma 0. -/
def ssig0 (x : Nat) : Nat := (rotr 7 x) ^^^ (rotr 18 x) ^^^ (x >>> 3)

/-- SHA-256 small sigma 1. -/
def ssig1 (x : Nat) : Nat := (rotr 17 x) ^^^ (rotr 19 x) ^^^ (x >>> 10)

/-- SHA-256 big sigma 0. -/
def bsig0 (x : Nat) : Nat := (rotr 2 x) ^^^ (rotr 13 x) ^^^ (rotr 22 x)

/-- SHA-256 big sigma 1. -/
def bsig1 (x : Nat) : Nat := (rotr 6 x) ^^^ (rotr 11 x) ^^^ (rotr 25 x)

/-- SHA-256 choice function; `x ^^^ 0xFFFFFFFF` is 32-bit complement. -/
def chF (x y z : Nat) : Nat := (x &&& y) ^^^ ((x ^^^ 4294967295) &&& z)

/-- SHA-256 majority function. -/
def majF (x y z : Nat) : Nat := (x &&& y) ^^^ (x &&& z) ^^^ (y &&& z)

/-- The 64 SHA-256 round constants of FIPS 180-4 (fractional parts of the cube
roots of the first 64 primes), written in decimal. -/
def shaK : List Nat :=
  [1116352408, 1899447441, 3049323471, 3921009573, 961987163,
   1508970993, 2453635748, 2870763221, 3624381080, 310598401,
   607225278, 1426881987, 1925078388, 2162078206, 2614888103,
   3248222580, 3835390401, 4022224774, 264347078, 604807628,
   770255983, 1249150122, 1555081692, 1996064986, 2554220882,
   2821834349, 2952996808, 3210313671, 3336571891, 3584528711,
   113926993, 338241895, 666307205, 773529912, 1294757372,
   1396182291, 1695183700, 1986661051, 2177026350, 2456956037,
   2730485921, 2820302411, 3259730800, 3345764771, 3516065817,
   3600352804, 4094571909, 275423344, 430227734, 506948616,
   659060556, 883997877, 958139571, 1322822218, 1537002063,
   1747873779, 1955562222, 2024104815, 2227730452, 2361852424,
   2428436474, 2756734187, 3204031479, 3329325298]

/-- The SHA-256 initial hash value of FIPS 180-4 (fractional parts of the
square roots of the first 8 primes), written in decimal. -/
def shaInit : List Nat :=
  [1779033703, 3144134277, 1013904242, 2773480762,
   1359893119, 2600822924, 528734635, 1541459225]

/-- Pad a byte message per FIPS 180-4: append `0x80`, zeros, and the 64-bit
big-endian bit length, so the total length is a multiple of 64 bytes. -/
def padMessage (msg : List Nat) : List Nat :=
  let l := msg.length
  let zeros := (119 - (l % 64)) % 64
  let bl := 8 * l
  msg ++ [0x80] ++ List.replicate zeros 0 ++
    [bl / 72057594037927936 % 256, bl / 281474976710656 % 256, bl / 1099511627776 % 256,
     bl / 4294967296 % 256, bl / 16777216 % 256, bl / 65536 % 256, bl / 256 % 256, bl % 256]

/-- Group bytes into big-endian 32-bit words. -/
def bytesToWords : List Nat → List Nat
  | a :: b :: c :: d :: rest => (((a * 256 + b) * 256 + c) * 256 + d) :: bytesToWords rest
  | _ => []

/-- Split a word list into 16-word blocks (`fuel` bounds the recursion and is
instantiated with the list length, which suffices). -/
def toBlocks : Nat → List Nat → List (List Nat)
  | 0, _ => []
  | _ + 1, [] => []
  | fuel + 1, ws => ws.take 16 :: toBlocks fuel (ws.drop 16)

/-- Extend a 16-word block to the 64-word message schedule. -/
def buildW (block : List Nat) : List Nat :=
  (List.range 48).foldl
    (fun w i =>
      w ++ [(ssig1 (w.getD (i + 14) 0) + w.getD (i + 9) 0 + ssig0 (w.getD (i + 1) 0) +
             w.getD i 0) % M32])
    block

/-- One SHA-256 round on the 8-word working state. -/
def roundStep (wt kt : Nat) (st : List Nat) : List Nat :=
  let a := st.getD 0 0
  let b := st.getD 1 0
  let c := st.getD 2 0
  let d := st.getD 3 0
  let e := st.getD 4 0
  let f := st.getD 5 0
  let g := st.getD 6 0
  let hh := st.getD 7 0
  let t1 := (hh + bsig1 e + chF e f g + kt + wt) % M32
  let t2 := (bsig0 a + majF a b c) % M32
  [(t1 + t2) % M32, a, b, c, (d + t1) % M32, e, f, g]

/-- The SHA-256 compression function on one 16-word block. -/
def compress (h : List Nat) (block : List Nat) : List Nat :=
  let w := buildW block
  let out := (List.range 64).foldl (fun st t => roundStep (w.getD t 0) (shaK.getD t 0) st) h
  List.zipWith (fun x y => (x + y) % M32) h out

/-- SHA-256 of a byte message, as the 8 words of the final hash value. -/
def sha256words (msg : List Nat) : List Nat :=
  let ws := bytesToWords (padMessage msg)
  (toBlocks ws.length ws).foldl compress shaInit

/-- The sixteen lowercase hexadecimal digit characters, in value order. -/
def hexDigits : List Char := "0123456789abcdef".data

/-- The lowercase hexadecimal digit for a value below 16. -/
def hexChar (n : Nat) : Char := hexDigits.getD n '0'

/-- The 8 hexadecimal characters of a 32-bit word, most significant first. -/
def wordHex (w : Nat) : List Char :=
  [hexChar (w / 268435456 % 16), hexChar (w / 16777216 % 16), hexChar (w / 1048576 % 16),
   hexChar (w / 65536 % 16), hexChar (w / 4096 % 16), hexChar (w / 256 % 16),
   hexChar (w / 16 % 16), hexChar (w % 16)]

/-- `hashlib.sha256(msg).hexdigest()`: the lowercase hexadecimal rendering of
the SHA-256 digest of a byte message. -/
def sha256hex (msg : List Nat) : String :=
  String.mk ((sha256words msg).map wordHex).flatten

/-! ### UTF-8 encoding (`str.encode('utf-8')`) -/

/-- The UTF-8 bytes of one character. -/
def utf8Char (c : Char) : List Nat :=
  let n := c.toNat
  if n < 128 then [n]
  else if n < 2048 then [192 + n / 64, 128 + n % 64]
  else if n < 65536 then [224 + n / 4096, 128 + n / 64 % 64, 128 + n % 64]
  else [240 + n / 262144, 128 + n / 4096 % 64, 128 + n / 64 % 64, 128 + n % 64]

/-- `s.encode('utf-8')` as a byte list. -/
def utf8Encode (s : String) : List Nat := (s.data.map utf8Char).flatten

/-! ### Canonical JSON serialization
(`json.dumps(payload, ensure_ascii=False, sort_keys=True, separators=(',', ':'))`) -/

/-- The escape sequence `json.dumps` (with `ensure_ascii=False`) emits for one
character: `"` and `\` get a backslash, the five named control characters get
their short escapes, other control characters below `0x20` get `\u00XX`, and
every other character is emitted as itself. -/
def escapeChar (c : Char) : List Char :=
  if c = '"' then ['\\', '"']
  else if c = '\\' then ['\\', '\\']
  else if c = '\x08' then ['\\', 'b']
  else if c = '\x09' then ['\\', 't']
  else if c = '\x0a' then ['\\', 'n']
  else if c = '\x0c' then ['\\', 'f']
  else if c = '\x0d' then ['\\', 'r']
  else if c.toNat < 32 then ['\\', 'u', '0', '0', hexChar (c.toNat / 16), hexChar (c.toNat % 16)]
  else [c]

/-- A JSON string literal: the escaped characters between double quotes. -/
def quoteStr (s : String) : String :=
  String.mk ('"' :: (s.data.map escapeChar).flatten ++ ['"'])

/-- Lexicographic comparison of character lists by code point: Python's `str`
comparison, which `sorted` and `json.dumps(sort_keys=True)` use on keys. -/
def lexLeb : List Char → List Char → Bool
  | [], _ => true
  | _ :: _, [] => false
  | a :: as, b :: bs =>
      if a.toNat < b.toNat then true
      else if b.toNat < a.toNat then false
      else lexLeb as bs

/-- Python's `<=` on strings: code-point lexicographic order. -/
def keyLeb (a b : String) : Bool := lexLeb a.data b.data

/-- Sorting of an object's serialized fields by key, as `sort_keys=True` does.
`json.dumps` sorts the items of the dict by key before serializing the values;
since a Python dict never holds two equal keys, sorting the
(key, serialized value) pairs by key is the same ordering. -/
def sortPairs (l : List (String × String)) : List (String × String) :=
  List.insertionSort (fun p q => keyLeb p.1 q.1 = true) l

mutual

/-- `json.dumps(v, ensure_ascii=False, sort_keys=True, separators=(',', ':'))`:
the canonical serialization with lexicographically sorted field names and no
insignificant whitespace. -/
def dumps : Json → String
  | .null => "null"
  | .bool true => "true"
  | .bool false => "false"
  | .num n => toString n
  | .str s => quoteStr s
  | .arr xs => "[" ++ String.intercalate "," (dumpsList xs) ++ "]"
  | .obj fs =>
      "\x7b" ++
        String.intercalate ","
          ((sortPairs (dumpFields fs)).map (fun p => quoteStr p.1 ++ ":" ++ p.2)) ++
        "\x7d"

/-- Serializations of the elements of a JSON array, in order. -/
def dumpsList : List Json → List String
  | [] => []
  | x :: xs => dumps x :: dumpsList xs

/-- Pairs of each field's key and its value's serialization, in field order. -/
def dumpFields : List (String × Json) → List (String × String)
  | [] => []
  | p :: fs => (p.1, dumps p.2) :: dumpFields fs

end

/-- `stable_cache_key(payload)`: SHA-256 hex digest of the canonical UTF-8
serialization of the payload (source lines 43-47). -/
def stable_cache_key (payload : Json) : String :=
  sha256hex (utf8Encode (dumps payload))

/-! ### Preferred-key sanitization (`do_POST`, source lines 127-135) -/

/-- The characters stripped from the edges by `safe_key.strip('-_. ')`. -/
def stripChars : List Char := ['-', '_', '.', ' ']

/-- Python's `str.strip('-_. ')`: drop the given characters from both ends. -/
def pyStrip (l : List Char) : List Char :=
  ((l.dropWhile (fun c => stripChars.contains c)).reverse.dropWhile
      (fun c => stripChars.contains c)).reverse

/-- Sanitization of the `X-Preferred-Cache-Key` header value: keep only
characters with `c.isalnum()` or `-` or `_`, strip edge characters, truncate
to 64.  Python's `str.isalnum` is a fixed Unicode character classifier; it is
taken as a parameter `isalnum`, so that theorems state exactly which of its
values they depend on (e.g. that no path separator is alphanumeric). -/
def sanitize_preferred_key (isalnum : Char → Bool) (s : String) : String :=
  let filtered := s.data.filter (fun c => isalnum c || c == '-' || c == '_')
  String.mk ((pyStrip filtered).take 64)

/-- The key under which the response is cached: the hash-derived key, unless a
non-falsy preferred-key header sanitizes to a non-empty string (lines 123-133). -/
def resolveKey (isalnum : Char → Bool) (hashKey : String) (preferred : Option String) : String :=
  match preferred with
  | none => hashKey
  | some p =>
      if p = "" then hashKey
      else
        let safe := sanitize_preferred_key isalnum p
        if safe = "" then hashKey else safe

/-! ### Credential resolution (`do_POST`, source lines 109-114) -/

/-- Resolve the API credential: the incoming `Authorization` header when it is
present and non-empty (Python truthiness), else `Bearer <OPENAI_API_KEY>` when
that environment variable is set and non-empty, else nothing. -/
def resolveAuth (authHeader : Option String) (envKey : Option String) : Option String :=
  if authHeader.getD "" ≠ "" then authHeader
  else if envKey.getD "" ≠ "" then some ("Bearer " ++ envKey.getD "")
  else none

/-! ### `int(...)` on the Content-Length header (`read_json_body`, line 52) -/

/-- The ASCII whitespace characters `int(str)` strips (Python also strips some
Unicode spaces, which no HTTP header contains). -/
def pyWhitespace : List Char := [' ', '\t', '\n', '\r', '\x0b', '\x0c']

/-- Numeric value of an ASCII digit character. -/
def digitVal (c : Char) : Nat := c.toNat - 48

/-- Digits after the first: an underscore may appear between two digits. -/
def parseDigitsGo (acc : Nat) : List Char → Option Nat
  | [] => some acc
  | '_' :: c :: rest => if c.isDigit then parseDigitsGo (acc * 10 + digitVal c) rest else none
  | c :: rest => if c.isDigit then parseDigitsGo (acc * 10 + digitVal c) rest else none

/-- A non-empty digit run with optional single underscores between digits. -/
def parseDigits : List Char → Option Nat
  | [] => none
  | c :: rest => if c.isDigit then parseDigitsGo (digitVal c) rest else none

/-- Python's `int(s)` on a decimal string: strip whitespace, optional sign,
digits; `none` models the `ValueError` it raises otherwise. -/
def pyParseInt (s : String) : Option Int :=
  let l := ((s.data.dropWhile (fun c => pyWhitespace.contains c)).reverse.dropWhile
      (fun c => pyWhitespace.contains c)).reverse
  match l with
  | '+' :: rest => (parseDigits rest).map (fun n => (n : Int))
  | '-' :: rest => (parseDigits rest).map (fun n => -(n : Int))
  | rest => (parseDigits rest).map (fun n => (n : Int))

/-! ### The request handler as a pure function

`do_POST` interacts with the outside world through: the request line and
headers, the request body bytes, the cache directory, the upstream HTTP call,
and the two fallible file operations.  Each is an explicit input below; the
response written to the socket is the output. -/

/-- Process-wide configuration read from the environment at startup. -/
structure Config where
  allowOrigin : String
  envApiKey : Option String

/-- The request body as `read_json_body` consumes it.  `decoded` is the result
of `data.decode('utf-8')` on the bytes read (`none` when they are not valid
UTF-8, which raises `UnicodeDecodeError`), and `parsed` is the result of
`json.loads` on that string (`none` when it raises `json.JSONDecodeError`). -/
structure RawBody where
  contentLengthHeader : Option String
  decoded : Option String
  parsed : Option Json

/-- The parts of an inbound request that `do_POST` consumes. -/
structure PostRequest where
  path : String
  authHeader : Option String
  preferredKeyHeader : Option String
  body : RawBody

/-- Outcome of the single upstream `urlopen` call on the miss path:
a response object (2xx), an `HTTPError` (non-2xx status with error body), a
`URLError` (no response at all), or any other exception. -/
inductive UpstreamOutcome where
  | ok (status : Nat) (contentTypeHeader : Option String) (bytes : List Nat)
  | httpError (code : Nat) (contentTypeHeader : Option String) (bytes : List Nat)
  | urlError (msg : String)
  | unexpected (msg : String)

/-- An HTTP response as written to the socket: status code, headers in the
order they are sent, and body bytes. -/
structure Response where
  status : Nat
  headers : List (String × String)
  body : List Nat

/-- Result of one `do_POST` (or `do_OPTIONS`) invocation: the response written
to the socket (`none` when an exception prevented any response), the cache
file written (name and bytes), and whether the upstream was contacted. -/
structure PostResult where
  response : Option Response
  cacheWrite : Option (String × List Nat)
  upstreamCalled : Bool

/-- `put_cors_headers` (source lines 62-67). -/
def put_cors_headers (cfg : Config) : List (String × String) :=
  [("Access-Control-Allow-Origin", cfg.allowOrigin),
   ("Access-Control-Allow-Methods", "POST, OPTIONS"),
   ("Access-Control-Allow-Headers", "Authorization, Content-Type, X-Preferred-Cache-Key"),
   ("Access-Control-Max-Age", "600")]

/-- Response produced by `BaseHTTPRequestHandler.send_error` (Python standard
library): the given status with a `text/html` content type, `Connection:
close`, and an HTML explanation page.  It does NOT include the proxy's CORS
headers.  The exact HTML markup of the page matters to no claim and is
abstracted as the UTF-8 bytes of the message. -/
def sendErrorResponse (code : Nat) (message : String) : Response :=
  { status := code
    headers := [("Content-Type", "text/html;charset=utf-8"), ("Connection", "close")]
    body := utf8Encode message }

/-- Body of the proxy's own JSON error responses,
`json.dumps({'error': msg}).encode('utf-8')` (default separators put a space
after the colon; the messages in the source are ASCII, so the `ensure_ascii`
default changes nothing). -/
def jsonErrorBody (msg : String) : List Nat :=
  utf8Encode ("\x7b\"error\": " ++ quoteStr msg ++ "\x7d")

/-- The `Content-Type` header of the proxy's JSON error responses. -/
def ctJson : String × String := ("Content-Type", "application/json; charset=utf-8")

/-- Python's `dict.get(k, default)` on an object's field list. -/
def pyGet (fields : List (String × Json)) (k : String) (default : Json) : Json :=
  match fields.lookup k with
  | some v => v
  | none => default

/-- Whether the first list is an initial segment of the second. -/
def leadMatch : List Char → List Char → Bool
  | [], _ => true
  | a :: as, s =>
      match s with
      | [] => false
      | b :: bs => a == b && leadMatch as bs

/-- Python's `str.startswith`. -/
def pyStartsWith (s pre : String) : Bool := leadMatch pre.data s.data

/-- Outcome of `read_json_body`: a returned JSON value, `badJson` for the
`json.JSONDecodeError` branch (which sends a 400 via `send_error` and
re-raises), or `pyError` for any other exception (non-integer Content-Length,
non-UTF-8 bytes), which propagates out of `read_json_body` unhandled. -/
inductive ReadOutcome where
  | ret (v : Json)
  | badJson
  | pyError

/-- `read_json_body` (source lines 50-59) as a classifier of the body. -/
def read_json_body (b : RawBody) : ReadOutcome :=
  match pyParseInt (b.contentLengthHeader.getD "0") with
  | none => .pyError
  | some len =>
      if len ≤ 0 then .ret (.obj [])
      else
        match b.decoded with
        | none => .pyError
        | some _ =>
            match b.parsed with
            | none => .badJson
            | some v => .ret v

/-- `do_POST` (source lines 87-217) as a pure function.  `cache` maps a file
name inside the cache directory to its bytes; `readOk` is whether
`mp3_path.read_bytes()` would succeed; `writeOk` is whether the
temporary-file write and rename would succeed; `upstream` is the outcome the
single `urlopen` call would have; `isalnum` is Python's `str.isalnum`. -/
def do_POST (cfg : Config) (cache : String → Option (List Nat)) (readOk : Bool)
    (upstream : UpstreamOutcome) (writeOk : Bool) (isalnum : Char → Bool)
    (req : PostRequest) : PostResult :=
  if req.path ≠ "/v1/audio/speech" then
    { response := some { status := 404, headers := put_cors_headers cfg, body := [] }
      cacheWrite := none, upstreamCalled := false }
  else
    match read_json_body req.body with
    | .badJson =>
        { response := some (sendErrorResponse 400 "Invalid JSON")
          cacheWrite := none, upstreamCalled := false }
    | .pyError =>
        { response := none, cacheWrite := none, upstreamCalled := false }
    | .ret payload =>
        match payload with
        | .obj fields =>
            let response_format := pyGet fields "response_format" (.str "mp3")
            if !jeqv response_format (.str "mp3") then
              { response := some
                  { status := 400, headers := put_cors_headers cfg ++ [ctJson]
                    body := jsonErrorBody "Only response_format=mp3 is supported by this proxy" }
                cacheWrite := none, upstreamCalled := false }
            else
              match resolveAuth req.authHeader cfg.envApiKey with
              | none =>
                  { response := some
                      { status := 401, headers := put_cors_headers cfg ++ [ctJson]
                        body := jsonErrorBody "Missing Authorization header and OPENAI_API_KEY env" }
                    cacheWrite := none, upstreamCalled := false }
              | some _auth =>
                  let key := resolveKey isalnum (stable_cache_key payload) req.preferredKeyHeader
                  let fname := key ++ ".mp3"
                  match cache fname with
                  | some data =>
                      if readOk then
                        { response := some
                            { status := 200
                              headers := put_cors_headers cfg ++
                                [("Content-Type", "audio/mpeg"),
                                 ("Content-Length", toString data.length), ("X-Cache", "HIT")]
                              body := data }
                          cacheWrite := none, upstreamCalled := false }
                      else
                        { response := some (sendErrorResponse 500 "Failed to read cache")
                          cacheWrite := none, upstreamCalled := false }
                  | none =>
                      match upstream with
                      | .httpError code ct bytes =>
                          { response := some
                              { status := code
                                headers := put_cors_headers cfg ++
                                  [("Content-Type", ct.getD "text/plain; charset=utf-8")]
                                body := bytes }
                            cacheWrite := none, upstreamCalled := true }
                      | .urlError m =>
                          { response := some
                              { status := 502, headers := put_cors_headers cfg ++ [ctJson]
                                body := jsonErrorBody ("Upstream connection failed: " ++ m) }
                            cacheWrite := none, upstreamCalled := true }
                      | .unexpected m =>
                          { response := some
                              { status := 500, headers := put_cors_headers cfg ++ [ctJson]
                                body := jsonErrorBody ("Unexpected error: " ++ m) }
                            cacheWrite := none, upstreamCalled := true }
                      | .ok status ct data =>
                          let ctype := ct.getD "audio/mpeg"
                          let write :=
                            if (status == 200 &&
                                  (pyStartsWith ctype "audio/mpeg" ||
                                    pyStartsWith ctype "audio/")) &&
                                writeOk then
                              some (fname, data)
                            else none
                          { response := some
                              { status := status
                                headers := put_cors_headers cfg ++
                                  [("Content-Type", "audio/mpeg"),
                                   ("Content-Length", toString data.length), ("X-Cache", "MISS")]
                                body := data }
                            cacheWrite := write, upstreamCalled := true }
        | _ =>
            { response := none, cacheWrite := none, upstreamCalled := false }

/-- `do_OPTIONS` (source lines 77-85). -/
def do_OPTIONS (cfg : Config) (path : String) : PostResult :=
  if path = "/v1/audio/speech" then
    { response := some { status := 204, headers := put_cors_headers cfg, body := [] }
      cacheWrite := none, upstreamCalled := false }
  else
    { response := some { status := 404, headers := put_cors_headers cfg, body := [] }
      cacheWrite := none, upstreamCalled := false }

/-- Method dispatch of `BaseHTTPRequestHandler.handle_one_request` (Python
standard library, the base class of `TTSProxyHandler`): a request whose method
has a `do_<METHOD>` handler is dispatched to it; any other method is answered
with `send_error(501, "Unsupported method ...")`.  `TTSProxyHandler` defines
only `do_POST` and `do_OPTIONS`. -/
def handle_one_request (cfg : Config) (cache : String → Option (List Nat)) (readOk : Bool)
    (upstream : UpstreamOutcome) (writeOk : Bool) (isalnum : Char → Bool)
    (method : String) (req : PostRequest) : PostResult :=
  if method = "POST" then do_POST cfg cache readOk upstream writeOk isalnum req
  else if method = "OPTIONS" then do_OPTIONS cfg req.path
  else
    { response := some (sendErrorResponse 501 ("Unsupported method ('" ++ method ++ "')"))
      cacheWrite := none, upstreamCalled := false }

/-! ### Shape of the hex digest -/

/-- One SHA-256 round always yields an 8-word state. -/
lemma roundStep_length (wt kt : Nat) (st : List Nat) : (roundStep wt kt st).length = 8 := by
  simp [roundStep]

/-- The compression function preserves the 8-word hash state. -/
lemma compress_length (h block : List Nat) (hlen : h.length = 8) :
    (compress h block).length = 8 := by
  have hout : ∀ (l : List Nat) (st : List Nat), st.length = 8 →
      (l.foldl (fun st t => roundStep ((buildW block).getD t 0) (shaK.getD t 0) st) st).length
        = 8 := by
    intro l
    induction l with
    | nil => intro st hst; exact hst
    | cons a l ih => intro st _; exact ih _ (roundStep_length _ _ _)
  simp only [compress, List.length_zipWith, hlen, hout (List.range 64) h hlen, Nat.min_self]

/-- The SHA-256 digest is 8 words. -/
lemma sha256words_length (msg : List Nat) : (sha256words msg).length = 8 := by
  have hfold : ∀ (bs : List (List Nat)) (h : List Nat), h.length = 8 →
      (bs.foldl compress h).length = 8 := by
    intro bs
    induction bs with
    | nil => intro h hh; exact hh
    | cons b bs ih => intro h hh; exact ih _ (compress_length _ _ hh)
  exact hfold _ _ rfl

/-- Every hexadecimal digit character is one of the sixteen. -/
lemma hexChar_mem (n : Nat) : hexChar n ∈ hexDigits := by
  rw [hexChar, List.getD_eq_getElem?_getD]
  rcases h : hexDigits[n]? with _ | c
  · decide
  · simpa using List.getElem?_mem h

/-- The characters of a word's hex rendering are hexadecimal digits. -/
lemma wordHex_mem (w : Nat) : ∀ c ∈ wordHex w, c ∈ hexDigits := by
  intro c hc
  simp only [wordHex, List.mem_cons, List.not_mem_nil, or_false] at hc
  rcases hc with h | h | h | h | h | h | h | h <;> (rw [h]; exact hexChar_mem _)

/-- A word's hex rendering is 8 characters. -/
lemma wordHex_length (w : Nat) : (wordHex w).length = 8 := rfl

/-- The hex digest of any message has 64 characters: it renders a 256-bit
hash. -/
lemma sha256hex_length (msg : List Nat) : (sha256hex msg).length = 64 := by
  have h8 : ∀ (ws : List Nat), ((ws.map wordHex).flatten).length = 8 * ws.length := by
    intro ws
    induction ws with
    | nil => rfl
    | cons w ws ih =>
        simp only [List.map_cons, List.flatten_cons, List.length_append, ih, wordHex_length,
          List.length_cons]
        omega
  rw [sha256hex, String.length_mk, h8, sha256words_length]

/-- Every character of the hex digest is a lowercase hexadecimal digit. -/
lemma sha256hex_chars (msg : List Nat) : ∀ c ∈ (sha256hex msg).data, c ∈ hexDigits := by
  intro c hc
  have hdata : (sha256hex msg).data = ((sha256words msg).map wordHex).flatten := rfl
  rw [hdata, List.mem_flatten] at hc
  obtain ⟨chunk, hchunk, hcmem⟩ := hc
  rw [List.mem_map] at hchunk
  obtain ⟨w, _, rfl⟩ := hchunk
  exact wordHex_mem w c hcmem

/-! ### Properties of the preferred-key sanitization -/

/-- Stripping edge characters keeps a subset of the characters. -/
lemma pyStrip_subset (l : List Char) : ∀ c ∈ pyStrip l, c ∈ l := by
  intro c hc
  rw [pyStrip, List.mem_reverse] at hc
  have h1 := (List.dropWhile_sublist _).subset hc
  rw [List.mem_reverse] at h1
  exact (List.dropWhile_sublist _).subset h1

/-- Every character of the sanitized key passed the filter: it is alphanumeric
(per the supplied classifier) or `-` or `_`. -/
lemma sanitize_chars (isalnum : Char → Bool) (s : String) :
    ∀ c ∈ (sanitize_preferred_key isalnum s).data,
      isalnum c = true ∨ c = '-' ∨ c = '_' := by
  intro c hc
  have hc' : c ∈ (pyStrip (s.data.filter fun c => isalnum c || c == '-' || c == '_')).take 64 := hc
  have h1 := List.take_subset _ _ hc'
  have h2 := pyStrip_subset _ c h1
  rw [List.mem_filter] at h2
  have h3 := h2.2
  simp only [Bool.or_eq_true, beq_iff_eq] at h3
  tauto

/-- The sanitized key is truncated to at most 64 characters. -/
lemma sanitize_length_le (isalnum : Char → Bool) (s : String) :
    (sanitize_preferred_key isalnum s).length ≤ 64 := by
  rw [sanitize_preferred_key, String.length_mk]
  have := List.length_take 64 (pyStrip (s.data.filter fun c => isalnum c || c == '-' || c == '_'))
  omega

/-- A non-empty string has positive length. -/
lemma one_le_length_of_ne_empty {s : String} (h : s ≠ "") : 1 ≤ s.length := by
  by_contra hlt
  push_neg at hlt
  apply h
  apply String.ext
  have h0 : s.data.length = 0 := by
    have hd : s.length = s.data.length := rfl
    omega
  simpa using List.length_eq_zero.mp h0

/-- A file name that cannot escape the cache directory when joined to it:
non-empty, not a dot component, and free of path separators, so
`CACHE_DIR / f` is a single normal component inside the cache directory. -/
def staysInCacheDir (f : String) : Prop :=
  f ≠ "" ∧ f ≠ "." ∧ f ≠ ".." ∧ ∀ c ∈ f.data, c ≠ '/' ∧ c ≠ '\\'

/-- Whatever key `resolveKey` settles on — hash-derived or sanitized
override — it is non-empty and free of path separators. -/
lemma resolveKey_safe (isalnum : Char → Bool)
    (h1 : isalnum '/' = false) (h2 : isalnum '\\' = false)
    (payload : Json) (pref : Option String) :
    1 ≤ (resolveKey isalnum (stable_cache_key payload) pref).length ∧
    ∀ c ∈ (resolveKey isalnum (stable_cache_key payload) pref).data, c ≠ '/' ∧ c ≠ '\\' := by
  have hhashlen : (stable_cache_key payload).length = 64 := sha256hex_length _
  have hhashc : ∀ c ∈ (stable_cache_key payload).data, c ≠ '/' ∧ c ≠ '\\' := by
    intro c hcmem
    have hx := sha256hex_chars _ c hcmem
    constructor <;> (rintro rfl; revert hx; decide)
  have hsan : ∀ p : String, sanitize_preferred_key isalnum p ≠ "" →
      1 ≤ (sanitize_preferred_key isalnum p).length ∧
      ∀ c ∈ (sanitize_preferred_key isalnum p).data, c ≠ '/' ∧ c ≠ '\\' := by
    intro p hne
    refine ⟨one_le_length_of_ne_empty hne, ?_⟩
    intro c hcmem
    rcases sanitize_chars isalnum p c hcmem with ha | ha | ha
    · constructor <;> (rintro rfl; simp [h1, h2] at ha)
    · rw [ha]; exact ⟨by decide, by decide⟩
    · rw [ha]; exact ⟨by decide, by decide⟩
  have hkey : resolveKey isalnum (stable_cache_key payload) pref = stable_cache_key payload ∨
      ∃ p, sanitize_preferred_key isalnum p ≠ "" ∧
        resolveKey isalnum (stable_cache_key payload) pref = sanitize_preferred_key isalnum p := by
    cases pref with
    | none => exact Or.inl rfl
    | some p =>
        by_cases hp : p = ""
        · left; simp [resolveKey, hp]
        · by_cases hs : sanitize_preferred_key isalnum p = ""
          · left; simp [resolveKey, hp, hs]
          · right; exact ⟨p, hs, by simp [resolveKey, hp, hs]⟩
  rcases hkey with hk | ⟨p, hs, hk⟩
  · rw [hk]; exact ⟨by omega, hhashc⟩
  · rw [hk]; exact hsan p hs

/-! ### Equality of payloads as JSON mappings

Two parsed payloads are "equal as JSON mappings" when they differ only in the
order of object fields (at any depth); serialized forms that differ moreover
in insignificant whitespace parse to the same `Json` value, so they are
covered as well. -/

mutual

/-- Equality of JSON values as mappings: identical scalars, elementwise
related arrays, and objects whose field lists match up to value equivalence
and permutation. -/
inductive JsonEquiv : Json → Json → Prop where
  | null : JsonEquiv .null .null
  | bool (b : Bool) : JsonEquiv (.bool b) (.bool b)
  | num (n : Int) : JsonEquiv (.num n) (.num n)
  | str (s : String) : JsonEquiv (.str s) (.str s)
  | arr {xs ys : List Json} : JsonListEquiv xs ys → JsonEquiv (.arr xs) (.arr ys)
  | obj {fs fs' gs : List (String × Json)} :
      JsonFieldsEquiv fs fs' → fs'.Perm gs → JsonEquiv (.obj fs) (.obj gs)

/-- Elementwise equivalence of JSON arrays (array order is significant). -/
inductive JsonListEquiv : List Json → List Json → Prop where
  | nil : JsonListEquiv [] []
  | cons {x y : Json} {xs ys : List Json} :
      JsonEquiv x y → JsonListEquiv xs ys → JsonListEquiv (x :: xs) (y :: ys)

/-- Entrywise equivalence of field lists: same keys in the same order, with
equivalent values. -/
inductive JsonFieldsEquiv : List (String × Json) → List (String × Json) → Prop where
  | nil : JsonFieldsEquiv [] []
  | cons {k : String} {v w : Json} {fs gs : List (String × Json)} :
      JsonEquiv v w → JsonFieldsEquiv fs gs →
      JsonFieldsEquiv ((k, v) :: fs) ((k, w) :: gs)

end

/-- Every object (at any depth) has pairwise distinct keys — true of every
value `json.loads` produces, since Python dicts cannot repeat a key. -/
inductive NodupKeys : Json → Prop where
  | null : NodupKeys .null
  | bool (b : Bool) : NodupKeys (.bool b)
  | num (n : Int) : NodupKeys (.num n)
  | str (s : String) : NodupKeys (.str s)
  | arr {xs : List Json} : (∀ x ∈ xs, NodupKeys x) → NodupKeys (.arr xs)
  | obj {fs : List (String × Json)} : (fs.map Prod.fst).Nodup →
      (∀ p ∈ fs, NodupKeys p.2) → NodupKeys (.obj fs)

/-! ### Size lemmas -/

/-- JSON values have positive size. -/
lemma jsize_pos (v : Json) : 1 ≤ jsize v := by
  cases v <;> simp [jsize]

/-- An array element is smaller than the array. -/
lemma jsize_lt_list {x : Json} : ∀ {xs : List Json}, x ∈ xs → jsize x < 1 + jsizeList xs := by
  intro xs
  induction xs with
  | nil => intro h; cases h
  | cons a l ih =>
      intro h
      rcases List.mem_cons.mp h with rfl | hmem
      · simp [jsizeList]; omega
      · have := ih hmem
        simp [jsizeList]
        omega

/-- A field's value is smaller than the object. -/
lemma jsize_lt_fields {p : String × Json} :
    ∀ {fs : List (String × Json)}, p ∈ fs → jsize p.2 < 1 + jsizeFields fs := by
  intro fs
  induction fs with
  | nil => intro h; cases h
  | cons q l ih =>
      intro h
      rcases List.mem_cons.mp h with rfl | hmem
      · simp [jsizeFields]; omega
      · have := ih hmem
        simp [jsizeFields]
        omega

/-! ### Determinism of the sorted rendering -/

/-- `dumpFields` keeps each field's key. -/
lemma dumpFields_fst (fs : List (String × Json)) :
    (dumpFields fs).map Prod.fst = fs.map Prod.fst := by
  induction fs with
  | nil => rfl
  | cons p fs ih => simp [dumpFields, ih]

/-- `dumpFields` is the map that serializes each value. -/
lemma dumpFields_eq_map (fs : List (String × Json)) :
    dumpFields fs = fs.map (fun p => (p.1, dumps p.2)) := by
  induction fs with
  | nil => rfl
  | cons p fs ih => simp [dumpFields, ih]

/-- `Char.toNat` determines the character. -/
lemma char_toNat_inj {a b : Char} (h : a.toNat = b.toNat) : a = b := by
  have h2 := congrArg Char.ofNat h
  rwa [Char.ofNat_toNat, Char.ofNat_toNat] at h2

/-- Unfolding of `lexLeb` on two cons cells. -/
lemma lexLeb_cons_iff {a b : Char} {as bs : List Char} :
    lexLeb (a :: as) (b :: bs) = true ↔
      a.toNat < b.toNat ∨ (a.toNat = b.toNat ∧ lexLeb as bs = true) := by
  simp only [lexLeb]
  split_ifs with h1 h2
  · simp [h1]
  · constructor
    · intro h
      simp at h
    · rintro (h | ⟨h, _⟩) <;> omega
  · have heq : a.toNat = b.toNat := by omega
    simp [heq]

/-- The code-point order is total. -/
lemma lexLeb_total : ∀ (x y : List Char), lexLeb x y = true ∨ lexLeb y x = true := by
  intro x
  induction x with
  | nil => intro y; left; rfl
  | cons a as ih =>
      intro y
      cases y with
      | nil => right; rfl
      | cons b bs =>
          rw [lexLeb_cons_iff, lexLeb_cons_iff]
          rcases Nat.lt_trichotomy a.toNat b.toNat with h | h | h
          · left; left; exact h
          · rcases ih bs with hr | hr
            · left; right; exact ⟨h, hr⟩
            · right; right; exact ⟨h.symm, hr⟩
          · right; left; exact h

/-- The code-point order is transitive. -/
lemma lexLeb_trans : ∀ (x y z : List Char),
    lexLeb x y = true → lexLeb y z = true → lexLeb x z = true := by
  intro x
  induction x with
  | nil => intro y z _ _; rfl
  | cons a as ih =>
      intro y z hxy hyz
      cases y with
      | nil => exact absurd hxy (by simp [lexLeb])
      | cons b bs =>
          cases z with
          | nil => exact absurd hyz (by simp [lexLeb])
          | cons c cs =>
              rw [lexLeb_cons_iff] at hxy hyz ⊢
              rcases hxy with h1 | ⟨h1, h1t⟩ <;> rcases hyz with h2 | ⟨h2, h2t⟩
              · left; omega
              · left; omega
              · left; omega
              · right; exact ⟨by omega, ih bs cs h1t h2t⟩

/-- The code-point order is antisymmetric. -/
lemma lexLeb_antisymm : ∀ (x y : List Char),
    lexLeb x y = true → lexLeb y x = true → x = y := by
  intro x
  induction x with
  | nil =>
      intro y h1 h2
      cases y with
      | nil => rfl
      | cons b bs => simp [lexLeb] at h2
  | cons a as ih =>
      intro y h1 h2
      cases y with
      | nil => simp [lexLeb] at h1
      | cons b bs =>
          rw [lexLeb_cons_iff] at h1 h2
          rcases h1 with h1 | ⟨h1, h1t⟩ <;> rcases h2 with h2 | ⟨h2, h2t⟩ <;> try omega
          rw [char_toNat_inj h1, ih bs h1t h2t]

/-- Totality of `keyLeb`. -/
lemma keyLeb_total (a b : String) : keyLeb a b = true ∨ keyLeb b a = true :=
  lexLeb_total a.data b.data

/-- Transitivity of `keyLeb`. -/
lemma keyLeb_trans {a b c : String} (h1 : keyLeb a b = true) (h2 : keyLeb b c = true) :
    keyLeb a c = true :=
  lexLeb_trans a.data b.data c.data h1 h2

/-- Antisymmetry of `keyLeb`. -/
lemma keyLeb_antisymm {a b : String} (h1 : keyLeb a b = true) (h2 : keyLeb b a = true) :
    a = b :=
  String.ext (lexLeb_antisymm a.data b.data h1 h2)

instance : IsTotal (String × String) (fun p q => keyLeb p.1 q.1 = true) :=
  ⟨fun p q => keyLeb_total p.1 q.1⟩

instance : IsTrans (String × String) (fun p q => keyLeb p.1 q.1 = true) :=
  ⟨fun _ _ _ hab hbc => keyLeb_trans hab hbc⟩

/-- Two sorted lists of (key, value) pairs that are permutations of each other
and repeat no key are equal: with distinct keys, sorting by key is
deterministic. -/
lemma eq_of_perm_sorted_nodupFst :
    ∀ (l₁ l₂ : List (String × String)), l₁.Perm l₂ → (l₁.map Prod.fst).Nodup →
      l₁.Sorted (fun p q => keyLeb p.1 q.1 = true) →
      l₂.Sorted (fun p q => keyLeb p.1 q.1 = true) → l₁ = l₂ := by
  intro l₁
  induction l₁ with
  | nil =>
      intro l₂ hp _ _ _
      exact (hp.symm.eq_nil).symm
  | cons a t ih =>
      intro l₂ hp hnd hs₁ hs₂
      cases l₂ with
      | nil => simpa using hp.eq_nil
      | cons b u =>
          have hab : a = b := by
            have hma : a ∈ b :: u := hp.subset (List.mem_cons_self a t)
            have hmb : b ∈ a :: t := hp.symm.subset (List.mem_cons_self b u)
            rcases List.mem_cons.mp hma with h1 | h1
            · exact h1
            rcases List.mem_cons.mp hmb with h2 | h2
            · exact h2.symm
            have hle1 : keyLeb a.1 b.1 = true := (List.sorted_cons.mp hs₁).1 b h2
            have hle2 : keyLeb b.1 a.1 = true := (List.sorted_cons.mp hs₂).1 a h1
            have hfst : a.1 = b.1 := keyLeb_antisymm hle1 hle2
            exfalso
            have hnd' := hnd
            rw [List.map_cons, List.nodup_cons] at hnd'
            exact hnd'.1 (hfst ▸ List.mem_map_of_mem Prod.fst h2)
          subst hab
          have ht : t.Perm u := hp.cons_inv
          have hndt : (t.map Prod.fst).Nodup := by
            rw [List.map_cons, List.nodup_cons] at hnd
            exact hnd.2
          rw [ih u ht hndt (List.sorted_cons.mp hs₁).2 (List.sorted_cons.mp hs₂).2]

/-- Sorting by key is invariant under permutation of fields with distinct
keys. -/
lemma sortPairs_eq_of_perm {l₁ l₂ : List (String × String)} (hp : l₁.Perm l₂)
    (hnd : (l₁.map Prod.fst).Nodup) : sortPairs l₁ = sortPairs l₂ := by
  apply eq_of_perm_sorted_nodupFst
  · exact (List.perm_insertionSort _ l₁).trans (hp.trans (List.perm_insertionSort _ l₂).symm)
  · exact (((List.perm_insertionSort _ l₁).map Prod.fst).nodup_iff).mpr hnd
  · exact List.sorted_insertionSort _ l₁
  · exact List.sorted_insertionSort _ l₂

/-- Payloads that are equal as JSON mappings (and repeat no key) have the same
canonical serialization. -/
lemma dumps_eq_of_equiv_aux :
    ∀ (n : Nat) (v w : Json), jsize v ≤ n → JsonEquiv v w → NodupKeys v →
      dumps v = dumps w := by
  intro n
  induction n with
  | zero =>
      intro v w hle _ _
      have := jsize_pos v
      omega
  | succ n ih =>
      intro v w hle heq hnd
      cases heq with
      | null => rfl
      | bool b => rfl
      | num m => rfl
      | str s => rfl
      | arr h =>
          rename_i xs ys
          have hsz : ∀ x ∈ xs, jsize x ≤ n := by
            intro x hx
            have h1 := jsize_lt_list hx
            have h2 : jsize (Json.arr xs) = 1 + jsizeList xs := rfl
            omega
          have hnd' : ∀ x ∈ xs, NodupKeys x := by
            cases hnd; assumption
          have hlist : ∀ (as : List Json), (∀ x ∈ as, jsize x ≤ n ∧ NodupKeys x) →
              ∀ bs, JsonListEquiv as bs → dumpsList as = dumpsList bs := by
            intro as
            induction as with
            | nil =>
                intro _ bs hab
                cases hab
                rfl
            | cons x as' ihl =>
                intro hmem bs hab
                cases hab with
                | cons hxy hrest =>
                    rename_i y bs'
                    simp only [dumpsList]
                    rw [ih x y (hmem x (by simp)).1 hxy (hmem x (by simp)).2,
                      ihl (fun z hz => hmem z (by simp [hz])) _ hrest]
          show dumps (.arr xs) = dumps (.arr ys)
          simp only [dumps]
          rw [hlist xs (fun x hx => ⟨hsz x hx, hnd' x hx⟩) ys h]
      | obj hf hperm =>
          rename_i fs fs' gs
          have hndk : (fs.map Prod.fst).Nodup ∧ ∀ p ∈ fs, NodupKeys p.2 := by
            cases hnd
            constructor <;> assumption
          have hsz : ∀ p ∈ fs, jsize p.2 ≤ n := by
            intro p hp
            have h1 := jsize_lt_fields hp
            have h2 : jsize (Json.obj fs) = 1 + jsizeFields fs := rfl
            omega
          have hdf : ∀ (as : List (String × Json)),
              (∀ p ∈ as, jsize p.2 ≤ n ∧ NodupKeys p.2) →
              ∀ bs, JsonFieldsEquiv as bs → dumpFields as = dumpFields bs := by
            intro as
            induction as with
            | nil =>
                intro _ bs hab
                cases hab
                rfl
            | cons q as' ihf =>
                intro hmem bs hab
                cases hab with
                | cons hvw hrest =>
                    rename_i k v w gs'
                    simp only [dumpFields]
                    rw [ih v w (hmem (k, v) (by simp)).1 hvw (hmem (k, v) (by simp)).2,
                      ihf (fun q hq => hmem q (by simp [hq])) _ hrest]
          have h1 : dumpFields fs = dumpFields fs' :=
            hdf fs (fun p hp => ⟨hsz p hp, hndk.2 p hp⟩) fs' hf
          have h2 : (dumpFields fs').Perm (dumpFields gs) := by
            rw [dumpFields_eq_map, dumpFields_eq_map]
            exact hperm.map _
          have h3 : ((dumpFields fs').map Prod.fst).Nodup := by
            rw [dumpFields_fst]
            have hkeys : fs.map Prod.fst = fs'.map Prod.fst := by
              rw [← dumpFields_fst fs, ← dumpFields_fst fs', h1]
            rw [← hkeys]
            exact hndk.1
          have h4 : sortPairs (dumpFields fs') = sortPairs (dumpFields gs) :=
            sortPairs_eq_of_perm h2 h3
          show dumps (.obj fs) = dumps (.obj gs)
          simp only [dumps]
          rw [h1, h4]

/-- Main canonicalization property of `dumps`. -/
lemma dumps_eq_of_equiv {v w : Json} (heq : JsonEquiv v w) (hnd : NodupKeys v) :
    dumps v = dumps w :=
  dumps_eq_of_equiv_aux (jsize v) v w le_rfl heq hnd

/-! ### Claim C1 -/

/-- C1: for every pair of request payloads that are equal as JSON mappings
(differing only in field order, or in insignificant whitespace of their
serialized forms — which parses to the identical value), `stable_cache_key`
returns the same key for both; and that key is the lowercase hexadecimal
rendering (64 hex characters) of the 256-bit SHA-256 hash of the canonical
serialization with lexicographically sorted field names and no insignificant
whitespace. -/
theorem stable_cache_key_canonical (P1 P2 : Json)
    (hequiv : JsonEquiv P1 P2) (hnd : NodupKeys P1) :
    stable_cache_key P1 = stable_cache_key P2 ∧
    stable_cache_key P1 = sha256hex (utf8Encode (dumps P1)) ∧
    (stable_cache_key P1).length = 64 ∧
    ∀ c ∈ (stable_cache_key P1).data, c ∈ hexDigits := by
  refine ⟨?_, rfl, sha256hex_length _, sha256hex_chars _⟩
  unfold stable_cache_key
  rw [dumps_eq_of_equiv hequiv hnd]

/-- A payload, as a mapping, in one field order. -/
def payloadA : Json := .obj [("input", .str "hi"), ("voice", .str "alloy")]

/-- The same mapping in the other field order. -/
def payloadB : Json := .obj [("voice", .str "alloy"), ("input", .str "hi")]

/-- Witness for C1 at the two concrete field orders of the same mapping. -/
theorem stable_cache_key_canonical_witness :
    stable_cache_key payloadA = stable_cache_key payloadB ∧
    stable_cache_key payloadA = sha256hex (utf8Encode (dumps payloadA)) ∧
    (stable_cache_key payloadA).length = 64 ∧
    ∀ c ∈ (stable_cache_key payloadA).data, c ∈ hexDigits :=
  stable_cache_key_canonical payloadA payloadB
    (JsonEquiv.obj
      (JsonFieldsEquiv.cons (JsonEquiv.str "hi")
        (JsonFieldsEquiv.cons (JsonEquiv.str "alloy") JsonFieldsEquiv.nil))
      (List.Perm.swap _ _ _))
    (NodupKeys.obj (by decide)
      (by
        intro p hp
        rcases List.mem_cons.mp hp with rfl | hp
        · exact NodupKeys.str _
        rcases List.mem_cons.mp hp with rfl | hp
        · exact NodupKeys.str _
        · cases hp))

/-! ### Claim C2 -/

/-- C2: for every `X-Preferred-Cache-Key` header value, the sanitized override
contains only alphanumeric characters (per Python's classifier), `-` and `_`;
it has length at most 64; it is used as the key only when non-empty after
sanitization, the hash-derived key being used otherwise; and the storage file
name `<key>.mp3` never escapes the cache directory, whatever the header value
(including path separators and spaces).  The only facts needed about Python's
`str.isalnum` are that `/` and `\` are not alphanumeric. -/
theorem preferred_key_sanitization_safe (isalnum : Char → Bool)
    (hsep : isalnum '/' = false ∧ isalnum '\\' = false)
    (payload : Json) (s : String) (pref : Option String) :
    (∀ c ∈ (sanitize_preferred_key isalnum s).data,
        isalnum c = true ∨ c = '-' ∨ c = '_') ∧
    (sanitize_preferred_key isalnum s).length ≤ 64 ∧
    (sanitize_preferred_key isalnum s = "" →
      resolveKey isalnum (stable_cache_key payload) (some s) = stable_cache_key payload) ∧
    (sanitize_preferred_key isalnum s ≠ "" →
      resolveKey isalnum (stable_cache_key payload) (some s) =
        sanitize_preferred_key isalnum s) ∧
    staysInCacheDir (resolveKey isalnum (stable_cache_key payload) pref ++ ".mp3") := by
  have h4 : (".mp3" : String).length = 4 := rfl
  refine ⟨sanitize_chars isalnum s, sanitize_length_le isalnum s, ?_, ?_, ?_⟩
  · intro h0
    by_cases hp : s = ""
    · simp [resolveKey, hp]
    · simp [resolveKey, hp, h0]
  · intro hne
    have hp : s ≠ "" := by
      intro h
      apply hne
      rw [h]
      rfl
    simp [resolveKey, hp, hne]
  · obtain ⟨hlen, hchars⟩ := resolveKey_safe isalnum hsep.1 hsep.2 payload pref
    refine ⟨?_, ?_, ?_, ?_⟩
    · intro h
      have hl := congrArg String.length h
      rw [String.length_append, h4] at hl
      have h0 : ("" : String).length = 0 := rfl
      omega
    · intro h
      have hl := congrArg String.length h
      rw [String.length_append, h4] at hl
      have h0 : ("." : String).length = 1 := rfl
      omega
    · intro h
      have hl := congrArg String.length h
      rw [String.length_append, h4] at hl
      have h0 : (".." : String).length = 2 := rfl
      omega
    · intro c hc
      rw [String.data_append] at hc
      rcases List.mem_append.mp hc with hm | hm
      · exact hchars c hm
      · have hd : ∀ x ∈ (".mp3" : String).data, x ≠ '/' ∧ x ≠ '\\' := by decide
        exact hd c hm

/-- Witness for C2 at Python's real `str.isalnum` restricted to ASCII (which
agrees with it on `/`, `\`, and every character of the sample header), a
traversal-shaped header value, and the empty payload. -/
theorem preferred_key_sanitization_safe_witness :
    (∀ c ∈ (sanitize_preferred_key Char.isAlphanum "../../etc/passwd x").data,
        Char.isAlphanum c = true ∨ c = '-' ∨ c = '_') ∧
    (sanitize_preferred_key Char.isAlphanum "../../etc/passwd x").length ≤ 64 ∧
    (sanitize_preferred_key Char.isAlphanum "../../etc/passwd x" = "" →
      resolveKey Char.isAlphanum (stable_cache_key (Json.obj []))
        (some "../../etc/passwd x") = stable_cache_key (Json.obj [])) ∧
    (sanitize_preferred_key Char.isAlphanum "../../etc/passwd x" ≠ "" →
      resolveKey Char.isAlphanum (stable_cache_key (Json.obj []))
        (some "../../etc/passwd x") =
          sanitize_preferred_key Char.isAlphanum "../../etc/passwd x") ∧
    staysInCacheDir (resolveKey Char.isAlphanum (stable_cache_key (Json.obj []))
      (some "../../etc/passwd x") ++ ".mp3") :=
  preferred_key_sanitization_safe Char.isAlphanum ⟨by decide, by decide⟩
    (Json.obj []) "../../etc/passwd x" (some "../../etc/passwd x")

/-! ### Concrete request material shared by the witnesses below -/

/-- Whether a response carries the `Access-Control-Allow-Origin` header. -/
def hasCors (r : Response) : Bool :=
  r.headers.any (fun p => p.1 == "Access-Control-Allow-Origin")

/-- A permissive configuration. -/
def cfg0 : Config := { allowOrigin := "*", envApiKey := some "sk-test" }

/-- The empty cache directory. -/
def cache0 : String → Option (List Nat) := fun _ => none

/-- A body whose two bytes decode and parse as the empty JSON object. -/
def body0 : RawBody :=
  { contentLengthHeader := some "2", decoded := some "\x7b\x7d", parsed := some (.obj []) }

/-- A well-formed POST request for the synthesis path. -/
def req0 : PostRequest :=
  { path := "/v1/audio/speech", authHeader := some "Bearer k",
    preferredKeyHeader := none, body := body0 }

/-- A body whose bytes are not valid JSON. -/
def badJsonBody : RawBody :=
  { contentLengthHeader := some "8", decoded := some "not json", parsed := none }

/-- A request carrying the malformed body. -/
def reqBadJson : PostRequest := { req0 with body := badJsonBody }

/-- A body that parses as a JSON array rather than an object. -/
def arrayBody : RawBody :=
  { contentLengthHeader := some "3", decoded := some "[1]", parsed := some (.arr [.num 1]) }

/-- A request whose JSON body is not an object. -/
def reqArrayBody : PostRequest := { req0 with body := arrayBody }

/-- A request for a path other than the synthesis route. -/
def reqWrongPath : PostRequest := { req0 with path := "/nope" }

/-! ### Claim C3 -/

/-- C3: a request whose miss path succeeds (upstream 200, audio content type)
persists the fetched bytes `B` under the derived key and is answered 200 with
the `X-Cache: MISS` marker and body `B`; the identical request re-run against
the cache extended by that entry takes the hit path: status 200, the
`X-Cache: HIT` marker, a body byte-identical to `B`, and no upstream
contact. -/
theorem miss_persists_then_hit_byte_identical (cfg : Config)
    (cache : String → Option (List Nat)) (readOk1 : Bool) (up2 : UpstreamOutcome)
    (w2 : Bool) (isalnum : Char → Bool) (req : PostRequest)
    (fields : List (String × Json)) (ct : Option String) (B : List Nat) (a fname : String)
    (hpath : req.path = "/v1/audio/speech")
    (hbody : read_json_body req.body = .ret (.obj fields))
    (hfmt : jeqv (pyGet fields "response_format" (.str "mp3")) (.str "mp3") = true)
    (hauth : resolveAuth req.authHeader cfg.envApiKey = some a)
    (hfname : fname = resolveKey isalnum (stable_cache_key (.obj fields))
        req.preferredKeyHeader ++ ".mp3")
    (hmiss : cache fname = none)
    (hct : (pyStartsWith (ct.getD "audio/mpeg") "audio/mpeg" ||
        pyStartsWith (ct.getD "audio/mpeg") "audio/") = true) :
    do_POST cfg cache readOk1 (.ok 200 ct B) true isalnum req =
      { response := some
          { status := 200
            headers := put_cors_headers cfg ++
              [("Content-Type", "audio/mpeg"), ("Content-Length", toString B.length),
               ("X-Cache", "MISS")]
            body := B }
        cacheWrite := some (fname, B), upstreamCalled := true } ∧
    do_POST cfg (fun g => if g = fname then some B else cache g) true up2 w2 isalnum req =
      { response := some
          { status := 200
            headers := put_cors_headers cfg ++
              [("Content-Type", "audio/mpeg"), ("Content-Length", toString B.length),
               ("X-Cache", "HIT")]
            body := B }
        cacheWrite := none, upstreamCalled := false } := by
  subst hfname
  constructor
  · simp [do_POST, hpath, hbody, hfmt, hauth, hmiss, hct]
  · simp [do_POST, hpath, hbody, hfmt, hauth]

/-- Witness for C3 at a concrete request and upstream audio bytes. -/
theorem miss_persists_then_hit_byte_identical_witness :
    do_POST cfg0 cache0 true (.ok 200 (some "audio/mpeg") [7, 8]) true Char.isAlphanum req0 =
      { response := some
          { status := 200
            headers := put_cors_headers cfg0 ++
              [("Content-Type", "audio/mpeg"),
               ("Content-Length", toString ([7, 8] : List Nat).length), ("X-Cache", "MISS")]
            body := [7, 8] }
        cacheWrite := some
          (resolveKey Char.isAlphanum (stable_cache_key (.obj [])) none ++ ".mp3", [7, 8])
        upstreamCalled := true } ∧
    do_POST cfg0
      (fun g =>
        if g = resolveKey Char.isAlphanum (stable_cache_key (.obj [])) none ++ ".mp3" then
          some [7, 8]
        else cache0 g)
      true (.urlError "down") false Char.isAlphanum req0 =
      { response := some
          { status := 200
            headers := put_cors_headers cfg0 ++
              [("Content-Type", "audio/mpeg"),
               ("Content-Length", toString ([7, 8] : List Nat).length), ("X-Cache", "HIT")]
            body := [7, 8] }
        cacheWrite := none, upstreamCalled := false } :=
  miss_persists_then_hit_byte_identical cfg0 cache0 true (.urlError "down") false
    Char.isAlphanum req0 [] (some "audio/mpeg") [7, 8] "Bearer k"
    (resolveKey Char.isAlphanum (stable_cache_key (.obj [])) none ++ ".mp3")
    rfl rfl rfl rfl rfl rfl (by decide)

/-! ### Claim C4 -/

/-- C4: when the miss-path upstream call raises `HTTPError` (a non-success
status with an error body), the handler relays exactly the upstream status
code and body, preserves the upstream content type when available (falling
back to `text/plain` otherwise), and creates no cache entry. -/
theorem upstream_error_relayed_verbatim (cfg : Config)
    (cache : String → Option (List Nat)) (readOk writeOk : Bool) (isalnum : Char → Bool)
    (req : PostRequest) (fields : List (String × Json)) (code : Nat) (ct : Option String)
    (bytes : List Nat) (a fname : String)
    (hpath : req.path = "/v1/audio/speech")
    (hbody : read_json_body req.body = .ret (.obj fields))
    (hfmt : jeqv (pyGet fields "response_format" (.str "mp3")) (.str "mp3") = true)
    (hauth : resolveAuth req.authHeader cfg.envApiKey = some a)
    (hfname : fname = resolveKey isalnum (stable_cache_key (.obj fields))
        req.preferredKeyHeader ++ ".mp3")
    (hmiss : cache fname = none) :
    do_POST cfg cache readOk (.httpError code ct bytes) writeOk isalnum req =
      { response := some
          { status := code
            headers := put_cors_headers cfg ++
              [("Content-Type", ct.getD "text/plain; charset=utf-8")]
            body := bytes }
        cacheWrite := none, upstreamCalled := true } := by
  subst hfname
  simp [do_POST, hpath, hbody, hfmt, hauth, hmiss]

/-- Witness for C4: upstream 503 with a JSON error body is relayed as-is and
nothing is cached. -/
theorem upstream_error_relayed_verbatim_witness :
    do_POST cfg0 cache0 true (.httpError 503 (some "application/json") [101, 102]) true
      Char.isAlphanum req0 =
      { response := some
          { status := 503
            headers := put_cors_headers cfg0 ++ [("Content-Type", "application/json")]
            body := [101, 102] }
        cacheWrite := none, upstreamCalled := true } := by
  have h := upstream_error_relayed_verbatim cfg0 cache0 true true Char.isAlphanum req0 []
    503 (some "application/json") [101, 102] "Bearer k"
    (resolveKey Char.isAlphanum (stable_cache_key (.obj [])) none ++ ".mp3")
    rfl rfl rfl rfl rfl rfl
  exact h

/-! ### Claim C5 -/

/-- C5: a POST to the synthesis path whose body is not parseable as JSON is
answered immediately with the 400 client error (sent by `send_error` inside
`read_json_body`), and nothing else happens: whatever the cache contents, the
upstream outcome or the credentials, the result is that same 400, with no
upstream call and no cache write. -/
theorem malformed_json_rejected_400 (cfg : Config) (cache : String → Option (List Nat))
    (readOk : Bool) (up : UpstreamOutcome) (writeOk : Bool) (isalnum : Char → Bool)
    (req : PostRequest)
    (hpath : req.path = "/v1/audio/speech")
    (hbad : read_json_body req.body = .badJson) :
    do_POST cfg cache readOk up writeOk isalnum req =
      { response := some (sendErrorResponse 400 "Invalid JSON")
        cacheWrite := none, upstreamCalled := false } := by
  simp [do_POST, hpath, hbad]

/-- Witness for C5 at a concrete malformed body. -/
theorem malformed_json_rejected_400_witness :
    do_POST cfg0 cache0 true (.urlError "down") true Char.isAlphanum reqBadJson =
      { response := some (sendErrorResponse 400 "Invalid JSON")
        cacheWrite := none, upstreamCalled := false } :=
  malformed_json_rejected_400 cfg0 cache0 true (.urlError "down") true Char.isAlphanum
    reqBadJson rfl rfl

/-! ### Claim C6 (corrected) -/

/-- C6 counterexample: the malformed-JSON failure path answers 400 through
`send_error`, whose response carries NO `Access-Control-Allow-Origin` header —
so not every failure path returns CORS headers. -/
theorem cors_missing_on_malformed_json :
    ((do_POST cfg0 cache0 true (.urlError "down") true Char.isAlphanum reqBadJson).response.map
      hasCors) = some false := rfl

/-- C6 (amended): every failure (or success) response of `do_POST` carries the
CORS headers, except the two responses emitted through the base handler's
`send_error` — the malformed-JSON 400 and the cache-read-failure 500 — which
carry no CORS headers. -/
theorem cors_on_all_paths_except_send_error (cfg : Config)
    (cache : String → Option (List Nat)) (readOk : Bool) (up : UpstreamOutcome)
    (writeOk : Bool) (isalnum : Char → Bool) (req : PostRequest) (r : Response)
    (hr : (do_POST cfg cache readOk up writeOk isalnum req).response = some r) :
    hasCors r = true ∨ r = sendErrorResponse 400 "Invalid JSON" ∨
      r = sendErrorResponse 500 "Failed to read cache" := by
  unfold do_POST at hr
  simp only [] at hr
  repeat' split at hr
  all_goals
    first
      | exact Option.noConfusion hr
      | (have h2 := Option.some.inj hr
         subst h2
         first
           | exact Or.inr (Or.inl rfl)
           | exact Or.inr (Or.inr rfl)
           | exact Or.inl (by simp [hasCors, put_cors_headers]))

/-- Witness for the amended C6 at the unknown-route failure. -/
theorem cors_on_all_paths_except_send_error_witness :
    hasCors { status := 404, headers := put_cors_headers cfg0, body := [] } = true ∨
    ({ status := 404, headers := put_cors_headers cfg0, body := [] } : Response) =
      sendErrorResponse 400 "Invalid JSON" ∨
    ({ status := 404, headers := put_cors_headers cfg0, body := [] } : Response) =
      sendErrorResponse 500 "Failed to read cache" :=
  cors_on_all_paths_except_send_error cfg0 cache0 true (.urlError "down") true
    Char.isAlphanum reqWrongPath _ rfl

/-! ### Claim C7 (corrected) -/

/-- C7 counterexample: a GET request (to the synthesis path itself) is not
answered 404-with-CORS: the base class rejects the unhandled method with a
501 `send_error` response carrying no CORS headers. -/
theorem unknown_method_answered_501_not_404 :
    ((handle_one_request cfg0 cache0 true (.urlError "down") true Char.isAlphanum
        "GET" req0).response.map (fun r => (r.status, hasCors r))) = some (501, false) := rfl

/-- C7 (amended): a POST or OPTIONS request for any path other than the
synthesis path is answered 404 with CORS headers; a request with any other
method is answered by the base class with `send_error(501, ...)`, without CORS
headers, whatever its path. -/
theorem unknown_route_404_unknown_method_501 (cfg : Config)
    (cache : String → Option (List Nat)) (readOk : Bool) (up : UpstreamOutcome)
    (writeOk : Bool) (isalnum : Char → Bool) (method : String) (req : PostRequest)
    (hpath : req.path ≠ "/v1/audio/speech") :
    ((method = "POST" ∨ method = "OPTIONS") →
      handle_one_request cfg cache readOk up writeOk isalnum method req =
        { response := some { status := 404, headers := put_cors_headers cfg, body := [] }
          cacheWrite := none, upstreamCalled := false }) ∧
    (method ≠ "POST" → method ≠ "OPTIONS" →
      handle_one_request cfg cache readOk up writeOk isalnum method req =
        { response := some
            (sendErrorResponse 501 ("Unsupported method ('" ++ method ++ "')"))
          cacheWrite := none, upstreamCalled := false }) := by
  constructor
  · rintro (rfl | rfl)
    · simp [handle_one_request, do_POST, hpath]
    · simp [handle_one_request, do_OPTIONS, hpath]
  · intro h1 h2
    simp [handle_one_request, h1, h2]

/-- Witness for the amended C7 at a GET request for an unknown path. -/
theorem unknown_route_404_unknown_method_501_witness :
    (("GET" = "POST" ∨ "GET" = "OPTIONS") →
      handle_one_request cfg0 cache0 true (.urlError "down") true Char.isAlphanum
          "GET" reqWrongPath =
        { response := some { status := 404, headers := put_cors_headers cfg0, body := [] }
          cacheWrite := none, upstreamCalled := false }) ∧
    ("GET" ≠ "POST" → "GET" ≠ "OPTIONS" →
      handle_one_request cfg0 cache0 true (.urlError "down") true Char.isAlphanum
          "GET" reqWrongPath =
        { response := some (sendErrorResponse 501 ("Unsupported method ('" ++ "GET" ++ "')"))
          cacheWrite := none, upstreamCalled := false }) :=
  unknown_route_404_unknown_method_501 cfg0 cache0 true (.urlError "down") true
    Char.isAlphanum "GET" reqWrongPath (by decide)

/-! ### Claim C8 -/

/-- C8: on a successful-audio miss, a persistence failure (temporary-file
write or rename) changes nothing the client sees: the response equals the one
produced when persistence succeeds — upstream status 200, the audio content
type, the correct content length, the MISS marker and the fetched bytes — and
no cache entry is recorded. -/
theorem persistence_failure_leaves_response_unchanged (cfg : Config)
    (cache : String → Option (List Nat)) (readOk : Bool) (isalnum : Char → Bool)
    (req : PostRequest) (fields : List (String × Json)) (ct : Option String)
    (B : List Nat) (a fname : String)
    (hpath : req.path = "/v1/audio/speech")
    (hbody : read_json_body req.body = .ret (.obj fields))
    (hfmt : jeqv (pyGet fields "response_format" (.str "mp3")) (.str "mp3") = true)
    (hauth : resolveAuth req.authHeader cfg.envApiKey = some a)
    (hfname : fname = resolveKey isalnum (stable_cache_key (.obj fields))
        req.preferredKeyHeader ++ ".mp3")
    (hmiss : cache fname = none)
    (hct : (pyStartsWith (ct.getD "audio/mpeg") "audio/mpeg" ||
        pyStartsWith (ct.getD "audio/mpeg") "audio/") = true) :
    (do_POST cfg cache readOk (.ok 200 ct B) false isalnum req).response =
      (do_POST cfg cache readOk (.ok 200 ct B) true isalnum req).response ∧
    do_POST cfg cache readOk (.ok 200 ct B) false isalnum req =
      { response := some
          { status := 200
            headers := put_cors_headers cfg ++
              [("Content-Type", "audio/mpeg"), ("Content-Length", toString B.length),
               ("X-Cache", "MISS")]
            body := B }
        cacheWrite := none, upstreamCalled := true } := by
  subst hfname
  constructor
  · simp [do_POST, hpath, hbody, hfmt, hauth, hmiss]
  · simp [do_POST, hpath, hbody, hfmt, hauth, hmiss, hct]

/-- Witness for C8 at a concrete request with failing persistence. -/
theorem persistence_failure_leaves_response_unchanged_witness :
    (do_POST cfg0 cache0 true (.ok 200 (some "audio/mpeg") [7, 8]) false
        Char.isAlphanum req0).response =
      (do_POST cfg0 cache0 true (.ok 200 (some "audio/mpeg") [7, 8]) true
        Char.isAlphanum req0).response ∧
    do_POST cfg0 cache0 true (.ok 200 (some "audio/mpeg") [7, 8]) false
        Char.isAlphanum req0 =
      { response := some
          { status := 200
            headers := put_cors_headers cfg0 ++
              [("Content-Type", "audio/mpeg"),
               ("Content-Length", toString ([7, 8] : List Nat).length), ("X-Cache", "MISS")]
            body := [7, 8] }
        cacheWrite := none, upstreamCalled := true } :=
  persistence_failure_leaves_response_unchanged cfg0 cache0 true Char.isAlphanum req0 []
    (some "audio/mpeg") [7, 8] "Bearer k"
    (resolveKey Char.isAlphanum (stable_cache_key (.obj [])) none ++ ".mp3")
    rfl rfl rfl rfl rfl rfl (by decide)

/-! ### Claim C9 -/

/-- The payload of `payloadA` extended with an explicit
`"response_format": "mp3"` field. -/
def payloadWithFormat : Json :=
  .obj [("input", .str "hi"), ("voice", .str "alloy"), ("response_format", .str "mp3")]

set_option maxRecDepth 1000000 in
/-- C9: a payload omitting `response_format` passes validation — the check
reads the field with default `'mp3'` — and so does the otherwise identical
payload stating `"response_format":"mp3"` explicitly; yet the two receive
different cache keys, because `stable_cache_key` hashes the payload as given,
before the default is applied: two logically equivalent requests map to
distinct cache entries. -/
theorem omitted_format_accepted_but_distinct_key :
    jeqv (pyGet [("input", Json.str "hi"), ("voice", Json.str "alloy")]
      "response_format" (.str "mp3")) (.str "mp3") = true ∧
    jeqv (pyGet [("input", Json.str "hi"), ("voice", Json.str "alloy"),
      ("response_format", Json.str "mp3")] "response_format" (.str "mp3")) (.str "mp3") = true ∧
    stable_cache_key payloadA ≠ stable_cache_key payloadWithFormat := by
  refine ⟨rfl, rfl, ?_⟩
  decide

/-! ### Claim C10 -/

/-- Whether a JSON value is an object (a Python dict). -/
def isObj : Json → Bool
  | .obj _ => true
  | _ => false

/-- C10: a POST to the synthesis path whose body is valid JSON but not an
object, or whose bytes are not valid UTF-8, or whose Content-Length header is
not an integer, produces NO response at all: the exception escapes the
`JSONDecodeError` handler, so no 400 (nor any status) is sent, no upstream
call happens, and nothing is written to the cache. -/
theorem no_response_on_non_object_or_decode_failure (cfg : Config)
    (cache : String → Option (List Nat)) (readOk : Bool) (up : UpstreamOutcome)
    (writeOk : Bool) (isalnum : Char → Bool) (req : PostRequest)
    (hpath : req.path = "/v1/audio/speech")
    (hbad : read_json_body req.body = .pyError ∨
      ∃ v, read_json_body req.body = .ret v ∧ isObj v = false) :
    (do_POST cfg cache readOk up writeOk isalnum req).response = none ∧
    (do_POST cfg cache readOk up writeOk isalnum req).cacheWrite = none ∧
    (do_POST cfg cache readOk up writeOk isalnum req).upstreamCalled = false := by
  rcases hbad with h | ⟨v, hv, hno⟩
  · simp [do_POST, hpath, h]
  · cases v <;> simp_all [do_POST, hpath, isObj]

/-- Witness for C10 at a body that parses as the JSON array `[1]`. -/
theorem no_response_on_non_object_or_decode_failure_witness :
    (do_POST cfg0 cache0 true (.urlError "down") true Char.isAlphanum
      reqArrayBody).response = none ∧
    (do_POST cfg0 cache0 true (.urlError "down") true Char.isAlphanum
      reqArrayBody).cacheWrite = none ∧
    (do_POST cfg0 cache0 true (.urlError "down") true Char.isAlphanum
      reqArrayBody).upstreamCalled = false :=
  no_response_on_non_object_or_decode_failure cfg0 cache0 true (.urlError "down") true
    Char.isAlphanum reqArrayBody rfl (Or.inr ⟨.arr [.num 1], rfl, rfl⟩)

end TTSProxy
